import Mathlib

/-!
Verification development for the Logic Simulator project.

The definitions below are a shallow embedding of the Python sources:
* `Names` embeds `logsim/names.py` (class `Names`);
* `Tok` (the Python `Symbol` class), `ScannerState` and the `getSymbol` family embed
  `logsim/scanner.py` (classes `Symbol` and `Scanner`), with the
  character file modelled as a `List Char` and the one-character
  lookahead `current_character` as an `Option Char` (`none` is the empty
  string Python's `read(1)` returns at end of file);
* the parser state and functions embed `logsim/parse.py` (class
  `Parser`), with the scanner abstracted to the token stream it
  produces;
* the devices / network / monitors modules are not part of the sources,
  so their operations used by the parser are modelled from the
  specification (each such definition is marked `Modelled from the
  spec:`).

Python loops are embedded as fuel-indexed structural recursions; every
theorem about a loop carries an explicit fuel bound that is at least the
number of iterations the loop can make on the given input.
-/

/-! ## Names (names.py) -/

/-- First-match association lookup; with cons-as-insert this has exactly
the semantics of a Python dict (later insertions shadow earlier ones). -/
def alookup {α β : Type} [DecidableEq α] (k : α) : List (α × β) → Option β
  | [] => none
  | (a, b) :: t => if a = k then some b else alookup k t

/-- The `Names` symbol table: `id_names` maps IDs to strings, `names_id`
maps strings to IDs, `num_items` counts stored names. -/
structure Names where
  id_names : List (Nat × String)
  names_id : List (String × Nat)
  num_items : Nat
deriving DecidableEq

/-- `Names.__init__`: empty table. -/
def Names.init : Names := ⟨[], [], 0⟩

/-- `Names.query`: ID for a string, `none` if absent. -/
def Names.query (n : Names) (s : String) : Option Nat :=
  alookup s n.names_id

/-- One iteration of the loop body of `Names.lookup`: return the ID of
`s`, interning `s` with the next fresh ID if it is absent. -/
def Names.lookupOne (n : Names) (s : String) : Names × Nat :=
  match n.query s with
  | some i => (n, i)
  | none =>
      ({ id_names := (n.num_items, s) :: n.id_names,
         names_id := (s, n.num_items) :: n.names_id,
         num_items := n.num_items + 1 }, n.num_items)

/-- `Names.lookup`: list of IDs for a list of strings, interning the
absent ones. -/
def Names.lookup (n : Names) : List String → Names × List Nat
  | [] => (n, [])
  | s :: t =>
      let p := n.lookupOne s
      let q := p.1.lookup t
      (q.1, p.2 :: q.2)

/-- `Names.get_name_string`: string for an ID, `none` if absent. -/
def Names.get_name_string (n : Names) (i : Nat) : Option String :=
  alookup i n.id_names

/-- Well-formedness of a `Names` table: every binding recorded in
`names_id` is mirrored in `id_names`.  The empty table satisfies it and
`lookup` preserves it. -/
def Names.Wf (n : Names) : Prop :=
  ∀ s i, alookup s n.names_id = some i → alookup i n.id_names = some s

/-! ## Scanner (scanner.py) -/

/-- The nine symbol kinds of `Scanner.symbol_type_list`. -/
inductive SymKind
  | COMMA | SEMICOLON | COLON | ARROW | DOT | KEYWORD | NUMBER | NAME | EOF
deriving DecidableEq

/-- The dynamically typed `Symbol.id` field: Python `None`, an `int`
(name IDs and numbers), or a `str` (SIGGEN waveforms). -/
inductive SymId
  | none
  | num (n : Nat)
  | str (s : String)
deriving DecidableEq

/-- `Symbol.__init__`: `type = None`, `id = None`, `line_number = 1`,
`position = 1`. -/
structure Tok where
  type : Option SymKind := Option.none
  id : SymId := SymId.none
  line_number : Nat := 1
  position : Nat := 1
deriving DecidableEq

/-- `Scanner.keywords_list`. -/
def keywordsList : List String :=
  ["DEVICES", "CONNECT", "MONITOR", "END", "CLOCK", "SWITCH", "AND", "NAND",
   "OR", "NOR", "XOR", "DTYPE", "DATA", "CLK", "SET", "CLEAR", "Q", "QBAR",
   "I1", "I2", "I3", "I4", "I5", "I6", "I7", "I8", "I9", "I10", "I11", "I12",
   "I13", "I14", "I15", "I16", "SIGGEN"]

/-- The keyword IDs produced by interning `keywordsList` into a fresh
`Names` table, exactly as `Scanner.__init__` does. -/
def keywordIds : List Nat := (Names.init.lookup keywordsList).2

/-- The `Names` table after `Scanner.__init__` interned the keywords. -/
def namesAfterKeywords : Names := (Names.init.lookup keywordsList).1

def DEVICES_ID : Nat := keywordIds.getD 0 0
def CONNECT_ID : Nat := keywordIds.getD 1 0
def MONITOR_ID : Nat := keywordIds.getD 2 0
def END_ID : Nat := keywordIds.getD 3 0
def CLOCK_ID : Nat := keywordIds.getD 4 0
def SWITCH_ID : Nat := keywordIds.getD 5 0
def AND_ID : Nat := keywordIds.getD 6 0
def NAND_ID : Nat := keywordIds.getD 7 0
def OR_ID : Nat := keywordIds.getD 8 0
def NOR_ID : Nat := keywordIds.getD 9 0
def XOR_ID : Nat := keywordIds.getD 10 0
def DTYPE_ID : Nat := keywordIds.getD 11 0
def DATA_ID : Nat := keywordIds.getD 12 0
def CLK_ID : Nat := keywordIds.getD 13 0
def SET_ID : Nat := keywordIds.getD 14 0
def CLEAR_ID : Nat := keywordIds.getD 15 0
def Q_ID : Nat := keywordIds.getD 16 0
def QBAR_ID : Nat := keywordIds.getD 17 0
def SIGGEN_ID : Nat := keywordIds.getD 34 0

/-- `Scanner.device_id_list`. -/
def deviceIdList : List Nat :=
  [CLOCK_ID, SWITCH_ID, AND_ID, NAND_ID, OR_ID, NOR_ID, XOR_ID, DTYPE_ID,
   SIGGEN_ID]

/-- The `Scanner` state: the unread characters of the file, the
one-character lookahead `current_character` (`none` once `read(1)`
returns the empty string), the position counters, the most recently read
name string, the shared `Names` table, and whether `FILE.close()` has
been called. -/
structure ScannerState where
  input : List Char
  current : Option Char
  position : Nat
  line_number : Nat
  name_string : String
  names : Names
  closed : Bool
deriving DecidableEq

/-- `Scanner.advance`: `position += 1` and read the next character. -/
def ScannerState.advance (s : ScannerState) : ScannerState :=
  { s with position := s.position + 1,
           current := s.input.head?,
           input := s.input.tail }

/-- `Scanner.__init__` after the keyword interning: open the file (its
characters are `text`), set `position = 0`, `line_number = 1`,
`current_character = ""` and call `advance` once. -/
def mkScanner (text : String) : ScannerState :=
  ScannerState.advance
    { input := text.toList, current := Option.none, position := 0,
      line_number := 1, name_string := "", names := namesAfterKeywords,
      closed := false }

/-- `Scanner.skip_spaces`: consume spaces and tabs; after consuming one,
add 3 more columns if the newly revealed character is a tab. -/
def skipSpaces : Nat → ScannerState → ScannerState
  | 0, s => s
  | fuel + 1, s =>
      if s.current = some ' ' ∨ s.current = some '\t' then
        let s1 := s.advance
        let s2 := if s1.current = some '\t'
                  then { s1 with position := s1.position + 3 } else s1
        skipSpaces fuel s2
      else s

/-- The maximal run of characters satisfying `p` starting at
`current_character`; shared loop body of `get_name`, `get_number`,
`get_waveform` and `get_bit` (each Python method repeats this loop
verbatim with its own accumulator). -/
def takeRun (p : Char → Bool) : Nat → ScannerState → List Char × ScannerState
  | 0, s => ([], s)
  | fuel + 1, s =>
      match s.current with
      | some c =>
          if p c then
            let r := takeRun p fuel s.advance
            (c :: r.1, r.2)
          else ([], s)
      | Option.none => ([], s)

/-- Python `int` of a decimal digit string (call sites guarantee the
run is non-empty, where Python's `int('')` would raise). -/
def pyIntDigits (ds : List Char) : Nat :=
  ds.foldl (fun a c => 10 * a + (c.toNat - 48)) 0

/-- `Scanner.get_name`: maximal alphanumeric run. -/
def getName (fuel : Nat) (s : ScannerState) : List Char × ScannerState :=
  takeRun Char.isAlphanum fuel s

/-- `Scanner.get_number`: maximal digit run as an integer. -/
def getNumber (fuel : Nat) (s : ScannerState) : Nat × ScannerState :=
  let r := takeRun Char.isDigit fuel s
  (pyIntDigits r.1, r.2)

/-- `Scanner.get_waveform`: maximal digit run kept as a string. -/
def getWaveform (fuel : Nat) (s : ScannerState) : String × ScannerState :=
  let r := takeRun Char.isDigit fuel s
  (String.mk r.1, r.2)

/-- `Scanner.get_bit`: maximal digit run; its integer value if it has
exactly one digit, the sentinel `2` otherwise. -/
def getBit (fuel : Nat) (s : ScannerState) : Nat × ScannerState :=
  let r := takeRun Char.isDigit fuel s
  (if r.1.length > 1 then 2 else pyIntDigits r.1, r.2)

/-- The `while` loop scanning a `/*...*/` block comment (lines 114-126
of `scanner.py`), entered with `comment_flag` already `True` and the
opening `*` consumed.  Returns `true` with the final state if end of
file was hit inside the comment (the caller then emits EOF), `false`
with the state after the closing `/` otherwise. -/
def blockLoop : Nat → Bool → ScannerState → Bool × ScannerState
  | 0, _, s => (true, s)
  | fuel + 1, flag, s =>
      if s.current = some '/' ∧ flag = false then (false, s.advance)
      else
        let s1 := if s.current = some '\n'
                  then { s with line_number := s.line_number + 1,
                                position := 0 }
                  else s
        let flag1 := if s1.current = some '*' then false else true
        if s1.current = Option.none then (true, s1.advance)
        else blockLoop fuel flag1 s1.advance

/-- Whether the block-comment loop, entered with flag `flag` on this
character stream, ever reaches the closing `/` (a `/` whose immediately
preceding scanned character was `*`). -/
def blockCloses : Bool → List Char → Bool
  | _, [] => false
  | flag, c :: t =>
      if c = '/' ∧ flag = false then true
      else blockCloses (if c = '*' then false else true) t

/-- The `while` loop scanning a `#` line comment (lines 131-136 of
`scanner.py`).  Returns `true` with the final state if end of file was
hit inside the comment, `false` with the state at the newline
otherwise. -/
def hashLoop : Nat → ScannerState → Bool × ScannerState
  | 0, s => (true, s)
  | fuel + 1, s =>
      if s.current = some '\n' then (false, s)
      else if s.current = Option.none then (true, s.advance)
      else hashLoop fuel s.advance

/-- The view of the scanner's remaining characters: the lookahead
followed by the unread input (empty once the lookahead is exhausted). -/
def streamOf (s : ScannerState) : List Char :=
  match s.current with
  | some c => c :: s.input
  | Option.none => []

/-- The token dispatch of `get_symbol` after comments and whitespace are
consumed (lines 168-218 of `scanner.py`). -/
def dispatch (fuel : Nat) (sym : Tok) (s : ScannerState) :
    Tok × ScannerState :=
  let sym := { sym with position := s.position,
                        line_number := s.line_number }
  match s.current with
  | some c =>
      if c.isAlpha then
        let r := getName fuel s
        let nstr := String.mk r.1
        let s1 := { r.2 with name_string := nstr }
        let k := if keywordsList.contains nstr
                 then SymKind.KEYWORD else SymKind.NAME
        let q := s1.names.lookup [nstr]
        ({ sym with type := some k, id := SymId.num (q.2.headD 0) },
         { s1 with names := q.1 })
      else if c.isDigit then
        if s.name_string = "SIGGEN" then
          let r := getWaveform fuel s
          ({ sym with type := some SymKind.NUMBER, id := SymId.str r.1 },
           r.2)
        else if s.name_string = "SWITCH" then
          let r := getBit fuel s
          ({ sym with type := some SymKind.NUMBER, id := SymId.num r.1 },
           r.2)
        else
          let r := getNumber fuel s
          ({ sym with type := some SymKind.NUMBER, id := SymId.num r.1 },
           r.2)
      else if c = ';' then
        ({ sym with type := some SymKind.SEMICOLON }, s.advance)
      else if c = '>' then
        ({ sym with type := some SymKind.ARROW }, s.advance)
      else if c = ',' then
        ({ sym with type := some SymKind.COMMA }, s.advance)
      else if c = ':' then
        ({ sym with type := some SymKind.COLON }, s.advance)
      else if c = '.' then
        ({ sym with type := some SymKind.DOT }, s.advance)
      else
        (sym, s.advance)
  | Option.none =>
      ({ sym with type := some SymKind.EOF }, { s with closed := true })

/-- The `while self.current_character in ["/", "#", "\n"]` loop of
`get_symbol` (lines 105-143 of `scanner.py`), followed by the token
dispatch once the loop exits. -/
def symLoop : Nat → Tok → ScannerState → Tok × ScannerState
  | 0, sym, s => (sym, s)
  | fuel + 1, sym, s =>
      if s.current = some '/' ∨ s.current = some '#' ∨
         s.current = some '\n' then
        if s.current = some '/' then
          let sym := { sym with line_number := s.line_number,
                                position := s.position }
          let s1 := s.advance
          if s1.current = some '*' then
            let r := blockLoop fuel true s1.advance
            if r.1 then ({ sym with type := some SymKind.EOF }, r.2)
            else symLoop fuel sym (skipSpaces fuel r.2)
          else (sym, s1)
        else if s.current = some '#' then
          let r := hashLoop fuel s
          if r.1 then ({ sym with type := some SymKind.EOF }, r.2)
          else symLoop fuel sym (skipSpaces fuel r.2)
        else
          let s1 := { s with line_number := s.line_number + 1,
                             position := 0 }
          symLoop fuel sym (skipSpaces fuel s1.advance)
      else dispatch fuel sym s

/-- `Scanner.get_symbol`: create a fresh `Tok`, skip whitespace, run
the comment loop, and dispatch on the current character. -/
def getSymbol (fuel : Nat) (s : ScannerState) : Tok × ScannerState :=
  symLoop fuel {} (skipSpaces fuel s)

/-- Python list indexing, including the negative-index convention;
`none` models an `IndexError`. -/
def pyIndex {α : Type} (l : List α) (i : Int) : Option α :=
  if 0 ≤ i then l.get? i.toNat
  else if (-i).toNat ≤ l.length then l.get? (l.length - (-i).toNat)
  else Option.none

/-- `Scanner.print_error`: the source line of the symbol with a caret
under its position, or a fixed message when the line number is out of
range.  `lines` is `initialise_lines()` (the file's lines, each keeping
its trailing newline except possibly the last); `none` models an
`IndexError`. -/
def printError (lines : List String) (sym : Tok) : Option String :=
  if 1 ≤ (sym.line_number : Int) ∧
     (sym.line_number : Int) ≤ (lines.length : Int) - 1 then
    (pyIndex lines ((sym.line_number : Int) - 1)).map
      (fun l => l ++ String.mk (List.replicate (sym.position - 1) ' ') ++ "^")
  else if (sym.line_number : Int) = (lines.length : Int) then
    (pyIndex lines ((sym.line_number : Int) - 1)).map
      (fun l => l ++ "\n" ++
        String.mk (List.replicate (sym.position - 1) ' ') ++ "^")
  else some "Line number out of range."

/-! ## Devices / Network / Monitors (modelled from the spec)

The repository sources contain only the scanner, names and parser
modules; `devices.py`, `network.py` and `monitors.py` are absent, so the
operations the parser calls on them are modelled from the
specification. -/

/-- Modelled from the spec: the device kind tags of the absent
`devices.py` (`self.devices.AND`, ..., `self.devices.SIGGEN`). -/
inductive DKind
  | AND | NAND | OR | NOR | XOR | DTYPE | CLOCK | SWITCH | SIGGEN
deriving DecidableEq

/-- Modelled from the spec: the result values of `make_device` in the
absent `devices.py`. -/
inductive MDRes
  | NO_ERROR | NO_QUALIFIER | INVALID_QUALIFIER | QUALIFIER_PRESENT
  | DEVICE_PRESENT
deriving DecidableEq

/-- Modelled from the spec: a device record of the absent `devices.py`:
its ID, kind, input ports (port-name ID, connected source or
UNCONNECTED) and output ports (`SymId.none` is the single unnamed
output). -/
structure Device where
  device_id : SymId
  device_kind : DKind
  inputs : List (Nat × Option (SymId × SymId))
  outputs : List SymId
deriving DecidableEq

/-- Modelled from the spec: `devices.get_device`. -/
def getDevice (ds : List Device) (i : SymId) : Option Device :=
  ds.find? (fun d => d.device_id = i)

/-- Modelled from the spec: `devices.find_devices()` without a kind
filter: the IDs of all devices. -/
def findDevices (ds : List Device) : List SymId :=
  ds.map (fun d => d.device_id)

/-- The gate input port-name IDs `I1 ... In` (keyword IDs 18..33),
unconnected. -/
def gateInputs (n : Nat) : List (Nat × Option (SymId × SymId)) :=
  (List.range n).map (fun i => (18 + i, Option.none))

/-- Modelled from the spec: `devices.make_device` of the absent
`devices.py`; checks qualifiers per kind (gates take 1..16 inputs, a
clock a non-zero period, a switch a bit, a siggen a non-empty bit
string; XOR and DTYPE take none), refuses duplicate IDs, and otherwise
inserts the device with its ports. -/
def makeDevice (ds : List Device) (i : SymId) (kind : DKind)
    (prop : SymId) : MDRes × List Device :=
  if (getDevice ds i).isSome then (MDRes.DEVICE_PRESENT, ds)
  else
    match kind with
    | DKind.XOR =>
        if prop ≠ SymId.none then (MDRes.QUALIFIER_PRESENT, ds)
        else (MDRes.NO_ERROR,
              ds ++ [⟨i, DKind.XOR, gateInputs 2, [SymId.none]⟩])
    | DKind.DTYPE =>
        if prop ≠ SymId.none then (MDRes.QUALIFIER_PRESENT, ds)
        else (MDRes.NO_ERROR,
              ds ++ [⟨i, DKind.DTYPE,
                      [(DATA_ID, Option.none), (CLK_ID, Option.none),
                       (SET_ID, Option.none), (CLEAR_ID, Option.none)],
                      [SymId.num Q_ID, SymId.num QBAR_ID]⟩])
    | DKind.AND =>
        match prop with
        | SymId.num n =>
            if 1 ≤ n ∧ n ≤ 16 then
              (MDRes.NO_ERROR,
               ds ++ [⟨i, DKind.AND, gateInputs n, [SymId.none]⟩])
            else (MDRes.INVALID_QUALIFIER, ds)
        | SymId.none => (MDRes.NO_QUALIFIER, ds)
        | SymId.str _ => (MDRes.INVALID_QUALIFIER, ds)
    | DKind.NAND =>
        match prop with
        | SymId.num n =>
            if 1 ≤ n ∧ n ≤ 16 then
              (MDRes.NO_ERROR,
               ds ++ [⟨i, DKind.NAND, gateInputs n, [SymId.none]⟩])
            else (MDRes.INVALID_QUALIFIER, ds)
        | SymId.none => (MDRes.NO_QUALIFIER, ds)
        | SymId.str _ => (MDRes.INVALID_QUALIFIER, ds)
    | DKind.OR =>
        match prop with
        | SymId.num n =>
            if 1 ≤ n ∧ n ≤ 16 then
              (MDRes.NO_ERROR,
               ds ++ [⟨i, DKind.OR, gateInputs n, [SymId.none]⟩])
            else (MDRes.INVALID_QUALIFIER, ds)
        | SymId.none => (MDRes.NO_QUALIFIER, ds)
        | SymId.str _ => (MDRes.INVALID_QUALIFIER, ds)
    | DKind.NOR =>
        match prop with
        | SymId.num n =>
            if 1 ≤ n ∧ n ≤ 16 then
              (MDRes.NO_ERROR,
               ds ++ [⟨i, DKind.NOR, gateInputs n, [SymId.none]⟩])
            else (MDRes.INVALID_QUALIFIER, ds)
        | SymId.none => (MDRes.NO_QUALIFIER, ds)
        | SymId.str _ => (MDRes.INVALID_QUALIFIER, ds)
    | DKind.CLOCK =>
        match prop with
        | SymId.num n =>
            if n = 0 then (MDRes.INVALID_QUALIFIER, ds)
            else (MDRes.NO_ERROR,
                  ds ++ [⟨i, DKind.CLOCK, [], [SymId.none]⟩])
        | SymId.none => (MDRes.NO_QUALIFIER, ds)
        | SymId.str _ => (MDRes.INVALID_QUALIFIER, ds)
    | DKind.SWITCH =>
        match prop with
        | SymId.num n =>
            if n ≤ 1 then
              (MDRes.NO_ERROR,
               ds ++ [⟨i, DKind.SWITCH, [], [SymId.none]⟩])
            else (MDRes.INVALID_QUALIFIER, ds)
        | SymId.none => (MDRes.NO_QUALIFIER, ds)
        | SymId.str _ => (MDRes.INVALID_QUALIFIER, ds)
    | DKind.SIGGEN =>
        match prop with
        | SymId.str w =>
            if w ≠ "" ∧ w.toList.all (fun c => c = '0' ∨ c = '1') then
              (MDRes.NO_ERROR,
               ds ++ [⟨i, DKind.SIGGEN, [], [SymId.none]⟩])
            else (MDRes.INVALID_QUALIFIER, ds)
        | SymId.none => (MDRes.NO_QUALIFIER, ds)
        | SymId.num _ => (MDRes.INVALID_QUALIFIER, ds)

/-- Modelled from the spec: the result values of `make_connection` in
the absent `network.py`. -/
inductive CRes
  | NO_ERROR | DEVICE_ABSENT | INPUT_CONNECTED | INPUT_TO_INPUT
  | PORT_ABSENT | OUTPUT_TO_OUTPUT
deriving DecidableEq

/-- Modelled from the spec: `network.make_connection` of the absent
`network.py` (first the source signal, then the sink signal, as the
parser passes them): record the source on the sink's input port,
rejecting absent devices or ports, inputs used as sources, outputs used
as sinks, and doubly driven inputs. -/
def makeConnection (ds : List Device) (srcDev srcPort sinkDev sinkPort :
    SymId) : CRes × List Device :=
  match getDevice ds srcDev, getDevice ds sinkDev with
  | Option.none, _ => (CRes.DEVICE_ABSENT, ds)
  | _, Option.none => (CRes.DEVICE_ABSENT, ds)
  | some src, some sink =>
      if (match srcPort with
          | SymId.num k => (alookup k src.inputs).isSome
          | _ => false) then (CRes.INPUT_TO_INPUT, ds)
      else if ¬ src.outputs.contains srcPort then (CRes.PORT_ABSENT, ds)
      else if sink.outputs.contains sinkPort then
        (CRes.OUTPUT_TO_OUTPUT, ds)
      else
        match sinkPort with
        | SymId.num k =>
            match alookup k sink.inputs with
            | Option.none => (CRes.PORT_ABSENT, ds)
            | some (some _) => (CRes.INPUT_CONNECTED, ds)
            | some Option.none =>
                (CRes.NO_ERROR,
                 ds.map (fun d =>
                   if d.device_id = sinkDev then
                     { d with inputs := d.inputs.map (fun q =>
                         if q.1 = k then (q.1, some (srcDev, srcPort))
                         else q) }
                   else d))
        | _ => (CRes.PORT_ABSENT, ds)

/-- Modelled from the spec: `network.check_network` of the absent
`network.py`: every input port of every device is connected. -/
def checkNetwork (ds : List Device) : Bool :=
  ds.all (fun d => d.inputs.all (fun q => q.2.isSome))

/-- Modelled from the spec: the result values of `make_monitor` in the
absent `monitors.py` (`network.DEVICE_ABSENT` is surfaced through the
same return value). -/
inductive MRes
  | NO_ERROR | NOT_OUTPUT | MONITOR_PRESENT | DEVICE_ABSENT
deriving DecidableEq

/-- Modelled from the spec: `monitors.make_monitor` of the absent
`monitors.py`: reject absent devices, non-output ports and duplicate
monitors, otherwise record the monitored (device, port) point. -/
def makeMonitor (ds : List Device) (ms : List (SymId × SymId))
    (dev port : SymId) : MRes × List (SymId × SymId) :=
  match getDevice ds dev with
  | Option.none => (MRes.DEVICE_ABSENT, ms)
  | some d =>
      if ¬ d.outputs.contains port then (MRes.NOT_OUTPUT, ms)
      else if ms.contains (dev, port) then (MRes.MONITOR_PRESENT, ms)
      else (MRes.NO_ERROR, ms ++ [(dev, port)])

/-- Modelled from the spec: `monitors.get_signal_names` of the absent
`monitors.py`: the monitored output points and the remaining
(non-monitored) output points; the parser only uses the lengths of the
two lists, so the points are returned as (device, port) ID pairs rather
than rendered strings. -/
def getSignalNames (ds : List Device) (ms : List (SymId × SymId)) :
    List (SymId × SymId) × List (SymId × SymId) :=
  let allPoints := ds.foldr
    (fun d acc => d.outputs.map (fun p => (d.device_id, p)) ++ acc) []
  (ms, allPoints.filter (fun x => ¬ ms.contains x))

/-! ## Parser (parse.py) -/

/-- The parser's error codes, `range(33)` in the order of
`Parser.error_type_list`. -/
def E_NO_SEMICOLON : Nat := 0
def E_NO_COLON : Nat := 1
def E_NO_ARROW : Nat := 2
def E_NO_DOT : Nat := 3
def E_DOT : Nat := 4
def E_NO_DEVICE_TYPE : Nat := 5
def E_NO_NUMBER : Nat := 6
def E_INVALID_NAME : Nat := 7
def E_CLOCK_PERIOD_ZERO : Nat := 8
def E_NO_INITIALISATION_KEYWORD : Nat := 9
def E_NOT_BIT : Nat := 10
def E_NO_ERROR : Nat := 11
def E_QUALIFIER_PRESENT : Nat := 12
def E_INVALID_RANGE : Nat := 13
def E_INVALID_CONNECTION_SC : Nat := 14
def E_DEVICE_ABSENT : Nat := 15
def E_INPUT_CONNECTED : Nat := 16
def E_INPUT_TO_INPUT : Nat := 17
def E_PORT_ABSENT : Nat := 18
def E_OUTPUT_TO_OUTPUT : Nat := 19
def E_NOT_CONNECTED : Nat := 20
def E_INVALID_PORT : Nat := 21
def E_INVALID_PORT_DTYPE : Nat := 22
def E_INVALID_PORT_XOR : Nat := 23
def E_NOT_I_PORT : Nat := 24
def E_PORT_OUT_RANGE : Nat := 25
def E_NOT_END : Nat := 26
def E_REPEATED_MONITOR : Nat := 27
def E_REPEATED_DEVICE : Nat := 28
def E_MISSED_SEMICOLON : Nat := 29
def E_NONBINARY_WAVEFORM : Nat := 30
def E_NO_WAVEFORM : Nat := 31
def E_NO_PERIOD : Nat := 32

/-- A raw devices-module error code leaking through the mappings of
`make_device_parser` (a code the `if`/`elif` chains do not translate,
e.g. `devices.DEVICE_PRESENT` for a repeated gate); its concrete
integer lives in the absent `devices.py`, so it is modelled as a value
outside the parser's `range(33)`. -/
def E_RAW_DEVICE_CODE : Nat := 100

/-- One printed diagnostic block (message, `LINE n:` header and caret
line) of `Parser.error`, tagged with the symbol it points at. -/
inductive Diag
  | faultMsg (errorType : Nat) (sym : Tok)
  | missedSemi (sym : Tok)
  | missingEnd (sym : Tok)
  | connectivity
  | emptyFile
  | summary (count : Nat)
deriving DecidableEq

/-- The parser's state over the scanner's token stream: unread tokens,
the current symbol, the `parent` section tag, the error count, the
diagnostics printed so far, the `Names` table shared with the scanner,
and the devices and monitors built so far. -/
structure ParserState where
  stream : List Tok
  symbol : Tok
  parent : Option Char
  error_count : Nat
  diags : List Diag
  names : Names
  devices : List Device
  monitors : List (SymId × SymId)
deriving DecidableEq

/-- `self.symbol = self.scanner.get_symbol()`: pop the next token.  A
well-formed stream ends with an EOF token and the parser never reads
past it; on an exhausted stream an EOF token is produced. -/
def ParserState.next (ps : ParserState) : ParserState :=
  match ps.stream with
  | t :: r => { ps with symbol := t, stream := r }
  | [] => { ps with symbol := { type := some SymKind.EOF } }

/-- Whether a `symbol.id` equals one of the section keyword IDs
`DEVICES_ID`, `CONNECT_ID`, `MONITOR_ID`, `END_ID` (a Python `int`
comparison, so a NUMBER token whose value is 0..3 also matches). -/
def isSectionId : SymId → Bool
  | SymId.num n =>
      n = DEVICES_ID ∨ n = CONNECT_ID ∨ n = MONITOR_ID ∨ n = END_ID
  | _ => false

/-- The panic-mode recovery loop of `Parser.error` (lines 602-628 of
`parse.py`): pop tokens until a COMMA inside a list, a SEMICOLON, a
section keyword, or EOF; landing on a section keyword adds a synthetic
missed-semicolon error unless `stopping_punctuation_flag` is set;
reaching EOF adds the missing-END error. -/
def perrorLoop : Nat → Bool → ParserState → ParserState
  | 0, _, ps => ps
  | fuel + 1, flag, ps =>
      if ps.symbol.type = some SymKind.EOF then
        { ps with error_count := ps.error_count + 1,
                  diags := ps.diags ++ [Diag.missingEnd ps.symbol],
                  parent := Option.none }
      else
        let ps := ps.next
        if ps.parent ≠ Option.none ∧ ps.symbol.type = some SymKind.COMMA
        then ps
        else if ps.symbol.type = some SymKind.SEMICOLON then
          { ps.next with parent := Option.none }
        else if isSectionId ps.symbol.id then
          if flag then { ps with parent := Option.none }
          else
            { ps with parent := Option.none,
                      error_count := ps.error_count + 1,
                      diags := ps.diags ++ [Diag.missedSemi ps.symbol] }
        else perrorLoop fuel flag ps

/-- `Parser.error` (lines 495-628 of `parse.py`): a `MISSED_SEMICOLON`
fault, or any fault raised while the current symbol is a section
keyword, prints only the missed-semicolon diagnostic; otherwise the
fault's own diagnostic is printed and panic-mode recovery runs, with
`stopping_punctuation_flag` set exactly for `NO_SEMICOLON`. -/
def perror (fuel : Nat) (errorType : Nat) (ps : ParserState) :
    ParserState :=
  if errorType = E_MISSED_SEMICOLON then
    { ps with parent := Option.none,
              error_count := ps.error_count + 1,
              diags := ps.diags ++ [Diag.missedSemi ps.symbol] }
  else if isSectionId ps.symbol.id then
    { ps with parent := Option.none,
              error_count := ps.error_count + 1,
              diags := ps.diags ++ [Diag.missedSemi ps.symbol] }
  else
    let ps := { ps with error_count := ps.error_count + 1,
                        diags := ps.diags ++
                          [Diag.faultMsg errorType ps.symbol] }
    let flag := errorType = E_NO_SEMICOLON
    if ps.symbol.type = some SymKind.COMMA ∧ ps.parent ≠ Option.none
    then ps
    else if ps.symbol.type = some SymKind.SEMICOLON then
      { ps.next with parent := Option.none }
    else if isSectionId ps.symbol.id then { ps with parent := Option.none }
    else perrorLoop fuel flag ps

/-- Whether a `symbol.id` is an `int` equal to a member of a list of
IDs (Python `symbol.id in list`). -/
def symIdInNats (i : SymId) (l : List Nat) : Bool :=
  match i with
  | SymId.num n => l.contains n
  | _ => false

/-- Whether a `symbol.id` is a key of a device's `inputs` dict (Python
`port_id in device.inputs.keys()`). -/
def symIdInputKey (i : SymId)
    (inputs : List (Nat × Option (SymId × SymId))) : Bool :=
  match i with
  | SymId.num k => (alookup k inputs).isSome
  | _ => false

/-- The parser's kind constant for a scanner device-type keyword ID
(`device_id_list` entries). -/
def kindOfTypeId (k : Nat) : DKind :=
  if k = CLOCK_ID then DKind.CLOCK
  else if k = SWITCH_ID then DKind.SWITCH
  else if k = AND_ID then DKind.AND
  else if k = NAND_ID then DKind.NAND
  else if k = OR_ID then DKind.OR
  else if k = NOR_ID then DKind.NOR
  else if k = XOR_ID then DKind.XOR
  else if k = DTYPE_ID then DKind.DTYPE
  else DKind.SIGGEN

/-- `Parser.make_device_parser` (lines 124-213 of `parse.py`): pop the
parameter symbol, call `devices.make_device` per device type, translate
the devices-module result into a parser error code, and (except on the
early-return paths) pop the symbol after the parameter.  A result the
`if`/`elif` chains leave untranslated is `E_RAW_DEVICE_CODE`. -/
def parseMakeDevice (deviceId dtId : SymId) (ps0 : ParserState) :
    Nat × ParserState :=
  let ps := ps0.next
  let prop := ps.symbol.id
  if dtId = SymId.num XOR_ID ∨ dtId = SymId.num DTYPE_ID then
    let kind := if dtId = SymId.num XOR_ID then DKind.XOR else DKind.DTYPE
    let r := makeDevice ps.devices deviceId kind prop
    let ps := { ps with devices := r.2 }
    match r.1 with
    | MDRes.QUALIFIER_PRESENT => (E_QUALIFIER_PRESENT, ps)
    | MDRes.DEVICE_PRESENT => (E_REPEATED_DEVICE, ps)
    | MDRes.NO_ERROR => (E_NO_ERROR, ps)
    | _ => (E_RAW_DEVICE_CODE, ps.next)
  else if dtId = SymId.num AND_ID ∨ dtId = SymId.num OR_ID ∨
          dtId = SymId.num NAND_ID ∨ dtId = SymId.num NOR_ID then
    let kind := if dtId = SymId.num AND_ID then DKind.AND
                else if dtId = SymId.num OR_ID then DKind.OR
                else if dtId = SymId.num NAND_ID then DKind.NAND
                else DKind.NOR
    let r := makeDevice ps.devices deviceId kind prop
    let e := match r.1 with
             | MDRes.NO_QUALIFIER => E_NO_NUMBER
             | MDRes.NO_ERROR => E_NO_ERROR
             | MDRes.INVALID_QUALIFIER => E_INVALID_RANGE
             | _ => E_RAW_DEVICE_CODE
    (e, ({ ps with devices := r.2 }).next)
  else if dtId = SymId.num CLOCK_ID then
    if ps.symbol.type ≠ some SymKind.NUMBER then (E_NO_PERIOD, ps.next)
    else
      let r := makeDevice ps.devices deviceId DKind.CLOCK prop
      let e := match r.1 with
               | MDRes.NO_QUALIFIER => E_NO_PERIOD
               | MDRes.NO_ERROR => E_NO_ERROR
               | MDRes.INVALID_QUALIFIER => E_CLOCK_PERIOD_ZERO
               | _ => E_RAW_DEVICE_CODE
      (e, ({ ps with devices := r.2 }).next)
  else if dtId = SymId.num SIGGEN_ID then
    if ps.symbol.type ≠ some SymKind.NUMBER then (E_NO_WAVEFORM, ps.next)
    else
      let r := makeDevice ps.devices deviceId DKind.SIGGEN prop
      let e := match r.1 with
               | MDRes.NO_QUALIFIER => E_NO_WAVEFORM
               | MDRes.NO_ERROR => E_NO_ERROR
               | MDRes.INVALID_QUALIFIER => E_NONBINARY_WAVEFORM
               | _ => E_RAW_DEVICE_CODE
      (e, ({ ps with devices := r.2 }).next)
  else if dtId = SymId.num SWITCH_ID then
    let r := makeDevice ps.devices deviceId DKind.SWITCH prop
    let ps := { ps with devices := r.2 }
    match r.1 with
    | MDRes.NO_QUALIFIER => (E_NOT_BIT, ps)
    | MDRes.INVALID_QUALIFIER => (E_NOT_BIT, ps.next)
    | MDRes.NO_ERROR => (E_NO_ERROR, ps.next)
    | _ => (E_RAW_DEVICE_CODE, ps.next)
  else (E_NO_ERROR, ps.next)

/-- `Parser.device` (lines 215-237 of `parse.py`): a NAME, a COLON and a
device-type keyword, then `make_device_parser`; a section keyword in
place of the NAME is a missed semicolon. -/
def pdevice (ps : ParserState) : Nat × ParserState :=
  if ps.symbol.type = some SymKind.NAME then
    let deviceId := ps.symbol.id
    let ps := ps.next
    if ps.symbol.type = some SymKind.COLON then
      let ps := ps.next
      if ps.symbol.type = some SymKind.KEYWORD ∧
         symIdInNats ps.symbol.id deviceIdList = true then
        parseMakeDevice deviceId ps.symbol.id ps
      else (E_NO_DEVICE_TYPE, ps)
    else (E_NO_COLON, ps)
  else if isSectionId ps.symbol.id then (E_MISSED_SEMICOLON, ps)
  else (E_INVALID_NAME, ps)

/-- The `while True` loop of `Parser.device_list` (lines 250-270 of
`parse.py`). -/
def devListLoop : Nat → ParserState → ParserState
  | 0, ps => ps
  | fuel + 1, ps =>
      if ps.symbol.type = some SymKind.COMMA then
        let r := pdevice ps.next
        let ps := if r.1 ≠ E_NO_ERROR then perror fuel r.1 r.2 else r.2
        if ps.parent = Option.none then ps else devListLoop fuel ps
      else if ps.symbol.type = some SymKind.SEMICOLON then ps.next
      else
        let ps := perror fuel E_NO_SEMICOLON ps
        if ps.parent = Option.none then ps else devListLoop fuel ps

/-- `Parser.device_list` (lines 239-270 of `parse.py`). -/
def deviceList (fuel : Nat) (ps : ParserState) : ParserState :=
  let r := pdevice ps
  let ps := if r.1 ≠ E_NO_ERROR then perror fuel r.1 r.2 else r.2
  if ps.parent = Option.none then ps else devListLoop fuel ps

/-- `Parser.in_signame` (lines 272-310 of `parse.py`): the source side
of a connection; a bare NAME for single-output devices, `NAME.Q` or
`NAME.QBAR` for DTYPE. -/
def inSigname (ps : ParserState) : Sum Nat (SymId × SymId) × ParserState :=
  if ps.symbol.type = some SymKind.NAME then
    let deviceId := ps.symbol.id
    match getDevice ps.devices deviceId with
    | Option.none => (Sum.inl E_DEVICE_ABSENT, ps)
    | some d =>
        let ps := ps.next
        if ¬ d.device_kind = DKind.DTYPE then
          if ps.symbol.type = some SymKind.DOT then
            if d.device_kind = DKind.SWITCH ∨ d.device_kind = DKind.CLOCK ∨
               d.device_kind = DKind.SIGGEN then
              (Sum.inl E_DOT, ps)
            else (Sum.inl E_INPUT_TO_INPUT, ps)
          else (Sum.inr (deviceId, SymId.none), ps)
        else
          if ps.symbol.type = some SymKind.DOT then
            let ps := ps.next
            let portId := ps.symbol.id
            if ¬ (portId = SymId.num Q_ID ∨ portId = SymId.num QBAR_ID)
            then (Sum.inl E_INVALID_PORT, ps)
            else (Sum.inr (deviceId, portId), ps.next)
          else (Sum.inl E_NO_DOT, ps)
  else if isSectionId ps.symbol.id then (Sum.inl E_MISSED_SEMICOLON, ps)
  else (Sum.inl E_INVALID_NAME, ps)

/-- `Parser.out_signame` (lines 312-353 of `parse.py`): the sink side of
a connection, `NAME.port` with `port` a declared input of the sink.
The result `Option.none` models the uncaught exception raised at line
343: on a gate sink whose port is not one of its input keys, the source
evaluates `name[0]` for `name = names.get_name_string(symbol.id)`,
which raises `TypeError` when `get_name_string` returns `None` (the
port token's id is Python `None`, a waveform string, or an un-interned
integer) and `IndexError` when it returns the empty string; the
exception propagates out of `parse_network`. -/
def outSigname (ps : ParserState) :
    Option (Sum Nat (SymId × SymId) × ParserState) :=
  if ps.symbol.type = some SymKind.NAME then
    let deviceId := ps.symbol.id
    match getDevice ps.devices deviceId with
    | Option.none => some (Sum.inl E_DEVICE_ABSENT, ps)
    | some d =>
        if d.device_kind = DKind.SWITCH ∨ d.device_kind = DKind.CLOCK ∨
           d.device_kind = DKind.SIGGEN then
          some (Sum.inl E_INVALID_CONNECTION_SC, ps)
        else
          let ps := ps.next
          if ps.symbol.type = some SymKind.DOT then
            let ps := ps.next
            let portId := ps.symbol.id
            if ¬ symIdInputKey portId d.inputs = true then
              if d.device_kind = DKind.DTYPE then
                if portId = SymId.num Q_ID ∨ portId = SymId.num QBAR_ID
                then some (Sum.inl E_OUTPUT_TO_OUTPUT, ps)
                else some (Sum.inl E_INVALID_PORT_DTYPE, ps)
              else if d.device_kind = DKind.XOR then
                some (Sum.inl E_INVALID_PORT_XOR, ps)
              else
                match ps.symbol.id with
                | SymId.num k =>
                    match ps.names.get_name_string k with
                    | some nm =>
                        match nm.toList with
                        | [] => Option.none
                        | c :: _ =>
                            if ¬ c = 'I' then
                              some (Sum.inl E_NOT_I_PORT, ps)
                            else some (Sum.inl E_PORT_OUT_RANGE, ps)
                    | Option.none => Option.none
                | _ => Option.none
            else some (Sum.inr (deviceId, portId), ps.next)
          else some (Sum.inl E_OUTPUT_TO_OUTPUT, ps)
  else some (Sum.inl E_INVALID_NAME, ps)

/-- `Parser.connection` (lines 355-391 of `parse.py`): source signal,
ARROW, sink signal, then `network.make_connection` with its result
translated to a parser error code.  `Option.none` propagates the
uncaught exception from `out_signame`. -/
def pconnection (ps : ParserState) : Option (Nat × ParserState) :=
  match inSigname ps with
  | (Sum.inl e, ps) => some (e, ps)
  | (Sum.inr inSig, ps) =>
      if ps.symbol.type ≠ some SymKind.ARROW then some (E_NO_ARROW, ps)
      else
        match outSigname ps.next with
        | Option.none => Option.none
        | some (Sum.inl e, ps) => some (e, ps)
        | some (Sum.inr outSig, ps) =>
            let r := makeConnection ps.devices inSig.1 inSig.2
                       outSig.1 outSig.2
            let e := match r.1 with
                     | CRes.DEVICE_ABSENT => E_DEVICE_ABSENT
                     | CRes.INPUT_CONNECTED => E_INPUT_CONNECTED
                     | CRes.INPUT_TO_INPUT => E_INPUT_TO_INPUT
                     | CRes.PORT_ABSENT => E_PORT_ABSENT
                     | CRes.OUTPUT_TO_OUTPUT => E_OUTPUT_TO_OUTPUT
                     | CRes.NO_ERROR => E_NO_ERROR
            some (e, { ps with devices := r.2 })

/-- The `while True` loop of `Parser.connection_list` (lines 403-422 of
`parse.py`); `Option.none` propagates the uncaught exception. -/
def conListLoop : Nat → ParserState → Option ParserState
  | 0, ps => some ps
  | fuel + 1, ps =>
      if ps.symbol.type = some SymKind.COMMA then
        match pconnection ps.next with
        | Option.none => Option.none
        | some r =>
            let ps := if r.1 ≠ E_NO_ERROR then perror fuel r.1 r.2 else r.2
            if ps.parent = Option.none then some ps
            else conListLoop fuel ps
      else if ps.symbol.type = some SymKind.SEMICOLON then some ps.next
      else
        let ps := perror fuel E_NO_SEMICOLON ps
        if ps.parent = Option.none then some ps else conListLoop fuel ps

/-- `Parser.connection_list` (lines 393-422 of `parse.py`);
`Option.none` propagates the uncaught exception. -/
def connectionList (fuel : Nat) (ps : ParserState) : Option ParserState :=
  match pconnection ps with
  | Option.none => Option.none
  | some r =>
      let ps := if r.1 ≠ E_NO_ERROR then perror fuel r.1 r.2 else r.2
      if ps.parent = Option.none then some ps else conListLoop fuel ps

/-- `Parser.monitor` (lines 424-462 of `parse.py`): a signal name, then
`monitors.make_monitor` with its result translated to a parser error
code. -/
def pmonitor (ps : ParserState) : Nat × ParserState :=
  if ps.symbol.type = some SymKind.NAME then
    let deviceId := ps.symbol.id
    let ps := ps.next
    if ps.symbol.type = some SymKind.DOT then
      let ps := ps.next
      let portId := ps.symbol.id
      let r := makeMonitor ps.devices ps.monitors deviceId portId
      let ps := ({ ps with monitors := r.2 }).next
      let e := match r.1 with
               | MRes.DEVICE_ABSENT => E_DEVICE_ABSENT
               | MRes.NOT_OUTPUT => E_INVALID_PORT
               | MRes.MONITOR_PRESENT => E_REPEATED_MONITOR
               | MRes.NO_ERROR => E_NO_ERROR
      (e, ps)
    else
      let r := makeMonitor ps.devices ps.monitors deviceId SymId.none
      let e := match r.1 with
               | MRes.DEVICE_ABSENT => E_DEVICE_ABSENT
               | MRes.NOT_OUTPUT => E_INVALID_PORT
               | MRes.MONITOR_PRESENT => E_REPEATED_MONITOR
               | MRes.NO_ERROR => E_NO_ERROR
      (e, { ps with monitors := r.2 })
  else if isSectionId ps.symbol.id then (E_MISSED_SEMICOLON, ps)
  else (E_INVALID_NAME, ps)

/-- The `while True` loop of `Parser.monitor_list` (lines 473-493 of
`parse.py`). -/
def monListLoop : Nat → ParserState → ParserState
  | 0, ps => ps
  | fuel + 1, ps =>
      if ps.symbol.type = some SymKind.COMMA then
        let r := pmonitor ps.next
        let ps := if r.1 ≠ E_NO_ERROR then perror fuel r.1 r.2 else r.2
        if ps.parent = Option.none then ps else monListLoop fuel ps
      else if ps.symbol.type = some SymKind.SEMICOLON then ps.next
      else
        let ps := perror fuel E_NO_SEMICOLON ps
        if ps.parent = Option.none then ps else monListLoop fuel ps

/-- `Parser.monitor_list` (lines 464-493 of `parse.py`). -/
def monitorList (fuel : Nat) (ps : ParserState) : ParserState :=
  let r := pmonitor ps
  let ps := if r.1 ≠ E_NO_ERROR then perror fuel r.1 r.2 else r.2
  if ps.parent = Option.none then ps else monListLoop fuel ps

/-- `Parser.end_of_file` (lines 118-122 of `parse.py`). -/
def endOfFile (fuel : Nat) (ps : ParserState) : ParserState :=
  if ps.symbol.type ≠ some SymKind.EOF then perror fuel E_NOT_END ps
  else ps

/-- The `while self.symbol.type != self.scanner.EOF` loop of
`Parser.parse_network` (lines 72-93 of `parse.py`).  The section
comparisons are on `symbol.id`, exactly as in the source;
`Option.none` propagates the uncaught exception from the CONNECT
section. -/
def parseLoop : Nat → ParserState → Option ParserState
  | 0, ps => some ps
  | fuel + 1, ps =>
      if ps.symbol.type = some SymKind.EOF then some ps
      else if ps.symbol.id = SymId.num DEVICES_ID then
        let ps := ({ ps with parent := some 'D' }).next
        let ps := deviceList fuel ps
        parseLoop fuel { ps with parent := Option.none }
      else if ps.symbol.id = SymId.num CONNECT_ID then
        let ps := ({ ps with parent := some 'C' }).next
        match connectionList fuel ps with
        | Option.none => Option.none
        | some ps => parseLoop fuel { ps with parent := Option.none }
      else if ps.symbol.id = SymId.num MONITOR_ID then
        let ps := ({ ps with parent := some 'M' }).next
        let ps := monitorList fuel ps
        parseLoop fuel { ps with parent := Option.none }
      else if ps.symbol.id = SymId.num END_ID then
        some (endOfFile fuel ps.next)
      else
        let ps := perror fuel E_NO_INITIALISATION_KEYWORD ps
        parseLoop fuel { ps with parent := Option.none }

/-- The checks of `Parser.parse_network` after its token loop (lines
95-116 of `parse.py`): the network-connectivity error, the empty-file
error, the error summary, and the boolean result. -/
def parseEpilogue (ps : ParserState) : Bool × ParserState :=
  let ps := if ps.error_count = 0 ∧ ¬ checkNetwork ps.devices = true then
              { ps with error_count := ps.error_count + 1,
                        diags := ps.diags ++ [Diag.connectivity] }
            else ps
  let ps := if ps.error_count = 0 ∧
               (findDevices ps.devices).length = 0 ∧
               (getSignalNames ps.devices ps.monitors).1.length = 0 ∧
               (getSignalNames ps.devices ps.monitors).2.length = 0 then
              { ps with error_count := ps.error_count + 1,
                        diags := ps.diags ++ [Diag.emptyFile] }
            else ps
  if ps.error_count > 0 then
    (false, { ps with diags := ps.diags ++ [Diag.summary ps.error_count] })
  else (true, ps)

/-- The parser's state at the start of `parse_network`, after the first
`self.symbol = self.scanner.get_symbol()`. -/
def parseInit (names : Names) (ts : List Tok) : ParserState :=
  ParserState.next
    { stream := ts, symbol := {}, parent := Option.none, error_count := 0,
      diags := [], names := names, devices := [], monitors := [] }

/-- `Parser.parse_network` (lines 65-116 of `parse.py`) over the token
stream `ts`.  `some (b, ps)` is a normal return of the boolean `b`;
`Option.none` is the uncaught `TypeError`/`IndexError` escaping
`parse_network` (there is no try/except anywhere in `parse.py`). -/
def parseNetwork (fuel : Nat) (names : Names) (ts : List Tok) :
    Option (Bool × ParserState) :=
  match parseLoop fuel (parseInit names ts) with
  | Option.none => Option.none
  | some ps => some (parseEpilogue ps)

/-! ## Theorems -/

/-- C7: for every string `s`, interning `s` via `Names.lookup` and
resolving the returned ID via `Names.get_name_string` yields `s` again,
and interning the same string a second time returns the same ID with
the table unchanged (the ID never changes once assigned). -/
theorem names_roundtrip (n : Names) (s : String) (hwf : n.Wf) :
    ∃ i, (n.lookup [s]).2 = [i] ∧
      (n.lookup [s]).1.get_name_string i = some s ∧
      (n.lookup [s]).1.lookup [s] = ((n.lookup [s]).1, [i]) := by
  cases h : alookup s n.names_id with
  | some i =>
      refine ⟨i, ?_, ?_, ?_⟩ <;>
        simp [Names.lookup, Names.lookupOne, Names.query, h,
              Names.get_name_string, hwf s i h]
  | none =>
      refine ⟨n.num_items, ?_, ?_, ?_⟩ <;>
        simp [Names.lookup, Names.lookupOne, Names.query, h,
              Names.get_name_string, alookup]

/-- Witness for C7 at the empty table and the string "clk". -/
theorem names_roundtrip_witness :
    ∃ i, (Names.init.lookup ["clk"]).2 = [i] ∧
      (Names.init.lookup ["clk"]).1.get_name_string i = some "clk" ∧
      (Names.init.lookup ["clk"]).1.lookup ["clk"] =
        ((Names.init.lookup ["clk"]).1, [i]) :=
  names_roundtrip Names.init "clk"
    (fun s i h => by simp [Names.init, alookup] at h)

/-- C10: `print_error` is total for every symbol with a positive line
number: a line number within the file yields the stored source line, a
newline exactly when the symbol is on the last line, `position - 1`
spaces and a caret, never indexing outside the stored line list; any
larger line number yields the fixed out-of-range message. -/
theorem printError_total (lines : List String) (sym : Tok)
    (h1 : 1 ≤ sym.line_number) :
    (sym.line_number ≤ lines.length →
      ∃ l, lines.get? (sym.line_number - 1) = some l ∧
        printError lines sym = some (l ++
          (if sym.line_number = lines.length then "\n" else "") ++
          String.mk (List.replicate (sym.position - 1) ' ') ++ "^")) ∧
    (lines.length < sym.line_number →
      printError lines sym = some "Line number out of range.") := by
  constructor
  · intro hle
    have hidx : sym.line_number - 1 < lines.length := by omega
    cases hget : lines.get? (sym.line_number - 1) with
    | none =>
        rw [List.get?_eq_none] at hget
        omega
    | some l =>
        refine ⟨l, rfl, ?_⟩
        have hcast : ((sym.line_number : Int) - 1).toNat =
            sym.line_number - 1 := by omega
        have hpy : pyIndex lines ((sym.line_number : Int) - 1) = some l := by
          rw [pyIndex, if_pos (show (0:Int) ≤ (sym.line_number : Int) - 1 by
            omega), hcast, hget]
        by_cases hlast : sym.line_number = lines.length
        · have hc1 : ¬ (1 ≤ (sym.line_number : Int) ∧
              (sym.line_number : Int) ≤ (lines.length : Int) - 1) := by
            omega
          have hc2 : (sym.line_number : Int) = (lines.length : Int) := by
            exact_mod_cast hlast
          rw [printError, if_neg hc1, if_pos hc2, hpy, Option.map_some',
            if_pos hlast]
        · have hc1 : 1 ≤ (sym.line_number : Int) ∧
              (sym.line_number : Int) ≤ (lines.length : Int) - 1 := by
            omega
          rw [printError, if_pos hc1, hpy, Option.map_some', if_neg hlast]
          simp
  · intro hgt
    have hc1 : ¬ (1 ≤ (sym.line_number : Int) ∧
        (sym.line_number : Int) ≤ (lines.length : Int) - 1) := by
      omega
    have hc2 : ¬ (sym.line_number : Int) = (lines.length : Int) := by
      omega
    rw [printError, if_neg hc1, if_neg hc2]

/-- Witness for C10: both regimes at a concrete two-line file. -/
theorem printError_total_witness :
    printError ["ab\n", "cd"]
      { type := Option.none, id := SymId.none, line_number := 2,
        position := 2 } = some "cd\n ^" ∧
    printError ["ab\n", "cd"]
      { type := Option.none, id := SymId.none, line_number := 7,
        position := 2 } = some "Line number out of range." := by
  constructor
  · obtain ⟨l, hl, he⟩ :=
      (printError_total ["ab\n", "cd"]
        { type := Option.none, id := SymId.none, line_number := 2,
          position := 2 } (by decide)).1 (by decide)
    have : l = "cd" := by
      simp [List.get?] at hl
      exact hl.symm
    rw [he, this]
    rfl
  · exact (printError_total ["ab\n", "cd"]
      { type := Option.none, id := SymId.none, line_number := 7,
        position := 2 } (by decide)).2 (by decide)

theorem skipSpaces_eq_self (fuel : Nat) (s : ScannerState)
    (h1 : s.current ≠ some ' ') (h2 : s.current ≠ some '\t') :
    skipSpaces fuel s = s := by
  cases fuel with
  | zero => rfl
  | succ f => simp [skipSpaces, h1, h2]

theorem streamOf_advance (s : ScannerState) :
    streamOf s.advance = s.input := by
  cases hi : s.input <;> simp [streamOf, ScannerState.advance, hi]

theorem takeRun_fst (p : Char → Bool) :
    ∀ fuel s, s.input.length < fuel →
      (takeRun p fuel s).1 = (streamOf s).takeWhile p := by
  intro fuel
  induction fuel with
  | zero => intro s h; exact absurd h (Nat.not_lt_zero _)
  | succ f ih =>
      intro s h
      cases hc : s.current with
      | none => simp [takeRun, hc, streamOf]
      | some c =>
          by_cases hp : p c
          · cases hi : s.input with
            | nil =>
                have hz : (takeRun p f s.advance).1 = [] := by
                  cases f <;> simp [takeRun, ScannerState.advance, hi]
                simp [takeRun, hc, hp, hz, streamOf, hi]
            | cons a t =>
                have hlen : s.advance.input.length < f := by
                  simp [ScannerState.advance, hi] at h ⊢
                  omega
                have hrec := ih s.advance hlen
                rw [streamOf_advance, hi] at hrec
                simp [takeRun, hc, hp, hrec, streamOf, hi]
          · simp [takeRun, hc, hp, streamOf]

theorem isAlpha_false_of_isDigit (c : Char) (h : c.isDigit = true) :
    c.isAlpha = false := by
  simp [Char.isDigit] at h
  simp [Char.isAlpha, Char.isUpper, Char.isLower]
  obtain ⟨h1, h2⟩ := h
  rw [UInt32.le_def, BitVec.le_def] at h1 h2
  have e48 : ((48 : UInt32).toBitVec).toNat = 48 := rfl
  have e57 : ((57 : UInt32).toBitVec).toNat = 57 := rfl
  have e65 : ((65 : UInt32).toBitVec).toNat = 65 := rfl
  have e90 : ((90 : UInt32).toBitVec).toNat = 90 := rfl
  have e97 : ((97 : UInt32).toBitVec).toNat = 97 := rfl
  have e122 : ((122 : UInt32).toBitVec).toNat = 122 := rfl
  simp only [e48, e57] at h1 h2
  refine ⟨fun hh => ?_, fun hh => ?_⟩ <;>
    rw [UInt32.le_def, BitVec.le_def] at hh <;>
      rw [UInt32.lt_def, BitVec.lt_def]
  · simp only [e65] at hh
    simp only [e90]
    omega
  · simp only [e97] at hh
    simp only [e122]
    omega

theorem char_ne_of_isDigit (d x : Char) (hd : d.isDigit = true)
    (hx : x.isDigit = false) : d ≠ x := by
  intro he
  rw [he, hx] at hd
  exact Bool.false_ne_true hd

/-- C4: when the most recently seen NAME/KEYWORD string is "SWITCH" and
the current character is a digit, `get_symbol` emits a NUMBER symbol
whose `id` is the run's integer value if the maximal digit run has
length exactly 1, and the sentinel `2` otherwise. -/
theorem switch_digit_run (fuel : Nat) (s : ScannerState) (d : Char)
    (hc : s.current = some d) (hd : d.isDigit = true)
    (hn : s.name_string = "SWITCH") (hf : s.input.length + 2 ≤ fuel) :
    (getSymbol fuel s).1.type = some SymKind.NUMBER ∧
    (getSymbol fuel s).1.id = SymId.num
      (if s.input.takeWhile Char.isDigit = [] then d.toNat - 48 else 2) := by
  obtain ⟨f, rfl⟩ : ∃ f, fuel = f + 1 := ⟨fuel - 1, by omega⟩
  have h1 : s.current ≠ some ' ' := by
    rw [hc]
    simpa using char_ne_of_isDigit d ' ' hd (by decide)
  have h2 : s.current ≠ some '\t' := by
    rw [hc]
    simpa using char_ne_of_isDigit d '\t' hd (by decide)
  have h3 : s.current ≠ some '/' := by
    rw [hc]
    simpa using char_ne_of_isDigit d '/' hd (by decide)
  have h4 : s.current ≠ some '#' := by
    rw [hc]
    simpa using char_ne_of_isDigit d '#' hd (by decide)
  have h5 : s.current ≠ some '\n' := by
    rw [hc]
    simpa using char_ne_of_isDigit d '\n' hd (by decide)
  have ha : d.isAlpha = false := isAlpha_false_of_isDigit d hd
  have hlen : s.input.length < f := by omega
  have htr := takeRun_fst Char.isDigit f s hlen
  simp only [streamOf, hc, List.takeWhile_cons, hd, if_true] at htr
  unfold getSymbol
  rw [skipSpaces_eq_self _ _ h1 h2]
  rw [show symLoop (f + 1) {} s = dispatch f {} s by
    simp [symLoop, h3, h4, h5]]
  cases htw : s.input.takeWhile Char.isDigit with
  | nil =>
      rw [htw] at htr
      simp [dispatch, hc, ha, hd, hn, getBit, htr, pyIntDigits]
  | cons a t =>
      rw [htw] at htr
      simp [dispatch, hc, ha, hd, hn, getBit, htr, pyIntDigits]

/-- C5 (amended): an input character that is not a letter, digit,
recognized punctuation, comment starter, whitespace or end-of-file is
consumed, and `get_symbol` returns immediately with a symbol whose kind
is unset (`type = None`, not one of the nine recognized kinds); a bare
`/` not followed by `*` likewise consumes only the `/` and returns a
`type = None` symbol.  The scanner does not retry. -/
theorem invalid_char_symbol :
    (∀ fuel s c, 1 ≤ fuel → s.current = some c → c.isAlpha = false →
      c.isDigit = false →
      c ∉ [',', ';', ':', '>', '.', '/', '#', '\n', ' ', '\t'] →
      getSymbol fuel s =
        ({ type := Option.none, id := SymId.none,
           line_number := s.line_number, position := s.position },
         s.advance)) ∧
    (∀ fuel s, 1 ≤ fuel → s.current = some '/' →
      s.input.head? ≠ some '*' →
      getSymbol fuel s =
        ({ type := Option.none, id := SymId.none,
           line_number := s.line_number, position := s.position },
         s.advance)) := by
  constructor
  · intro fuel s c hf hc ha hd hmem
    obtain ⟨f, rfl⟩ : ∃ f, fuel = f + 1 := ⟨fuel - 1, by omega⟩
    simp only [List.mem_cons, List.not_mem_nil, or_false] at hmem
    push_neg at hmem
    obtain ⟨n1, n2, n3, n4, n5, n6, n7, n8, n9, n10⟩ := hmem
    have hsp := skipSpaces_eq_self (f + 1) s
      (by rw [hc]; simpa using n9) (by rw [hc]; simpa using n10)
    unfold getSymbol
    rw [hsp]
    rw [show symLoop (f + 1) {} s = dispatch f {} s by
      simp [symLoop, hc, n6, n7, n8]]
    simp [dispatch, hc, ha, hd, n1, n2, n3, n4, n5]
  · intro fuel s hf hc hstar
    obtain ⟨f, rfl⟩ : ∃ f, fuel = f + 1 := ⟨fuel - 1, by omega⟩
    have hsp := skipSpaces_eq_self (f + 1) s
      (by rw [hc]; simp) (by rw [hc]; simp)
    unfold getSymbol
    rw [hsp]
    have hadv : s.advance.current ≠ some '*' := by
      rw [ScannerState.advance]
      simpa using hstar
    simp [symLoop, hc, hadv]

/-- C6 (amended): over a maximal whitespace run `w :: ws` followed by
`rest`, `skip_spaces` advances the reported column by one for each
consumed character plus three extra for every tab in `ws` — i.e. a tab
advances the column by 4 only when another space or tab precedes it in
the run; the first character of the run advances the column by exactly
1 even when it is a tab. -/
theorem skipSpaces_run :
    ∀ (ws : List Char) (w : Char) (rest : List Char) (s : ScannerState)
      (fuel : Nat),
      s.current = some w → (w = ' ' ∨ w = '\t') →
      s.input = ws ++ rest →
      (∀ c ∈ ws, c = ' ' ∨ c = '\t') →
      rest.head? ≠ some ' ' → rest.head? ≠ some '\t' →
      ws.length + 1 ≤ fuel →
      skipSpaces fuel s =
        { s with position := s.position + (1 + ws.length) +
                   3 * ws.count '\t',
                 current := rest.head?, input := rest.tail } := by
  intro ws
  induction ws with
  | nil =>
      intro w rest s fuel hc hw hin hws hr1 hr2 hf
      obtain ⟨f, rfl⟩ : ∃ f, fuel = f + 1 := ⟨fuel - 1, by omega⟩
      obtain ⟨inp, cur, pos, ln, nstr, nms, cl⟩ := s
      simp only [List.nil_append] at hin
      subst hin
      simp only at hc
      subst hc
      have hcond : (some w = some ' ' ∨ some w = some '\t') := by
        rcases hw with h | h <;> simp [h]
      simp only [skipSpaces, hcond, if_true, ScannerState.advance]
      rw [if_neg hr2]
      rw [skipSpaces_eq_self f _ (by simpa using hr1) (by simpa using hr2)]
      simp
  | cons a ws ih =>
      intro w rest s fuel hc hw hin hws hr1 hr2 hf
      obtain ⟨f, rfl⟩ : ∃ f, fuel = f + 1 := ⟨fuel - 1, by omega⟩
      obtain ⟨inp, cur, pos, ln, nstr, nms, cl⟩ := s
      simp only at hc hin
      subst hc
      subst hin
      have hcond : (some w = some ' ' ∨ some w = some '\t') := by
        rcases hw with h | h <;> simp [h]
      have hf' : ws.length + 1 ≤ f := by
        simp at hf
        omega
      have hws' : ∀ c ∈ ws, c = ' ' ∨ c = '\t' := by
        intro c hcw
        exact hws c (List.mem_cons_of_mem a hcw)
      have haw : a = ' ' ∨ a = '\t' := hws a (List.mem_cons_self a ws)
      simp only [skipSpaces, hcond, if_true, ScannerState.advance,
        List.cons_append, List.head?_cons, List.tail_cons]
      by_cases hat : a = '\t'
      · rw [if_pos (by simp [hat])]
        rw [ih a rest _ f (by simp) haw (by simp) hws' hr1 hr2 hf']
        simp [hat, List.count_cons, List.length_cons]
        omega
      · rw [if_neg (by simp [hat])]
        rw [ih a rest _ f (by simp) haw (by simp) hws' hr1 hr2 hf']
        simp [hat, List.count_cons, List.length_cons]
        omega

theorem streamOf_read (l : List Char) (pos ln : Nat) (nstr : String)
    (nms : Names) (cl : Bool) :
    streamOf ⟨l.tail, l.head?, pos, ln, nstr, nms, cl⟩ = l := by
  cases l <;> simp [streamOf]

theorem blockLoop_noClose :
    ∀ fuel flag s, blockCloses flag (streamOf s) = false →
      (streamOf s).length < fuel →
      (blockLoop fuel flag s).1 = true ∧
      (blockLoop fuel flag s).2.closed = s.closed := by
  intro fuel
  induction fuel with
  | zero => intro flag s h hl; exact absurd hl (Nat.not_lt_zero _)
  | succ f ih =>
      intro flag s h hl
      obtain ⟨inp, cur, pos, ln, nstr, nms, cl⟩ := s
      cases cur with
      | none =>
          simp [blockLoop, ScannerState.advance, streamOf]
      | some c =>
          simp only [streamOf] at h hl
          simp only [blockCloses] at h
          by_cases hcf : c = '/' ∧ flag = false
          · rw [if_pos hcf] at h
            exact absurd h (by simp)
          · rw [if_neg hcf] at h
            have hlen : inp.length < f := by
              simp at hl
              omega
            by_cases hnl : c = '\n'
            · subst hnl
              have hrec := ih (if '\n' = '*' then false else true)
                ⟨inp.tail, inp.head?, 0 + 1, ln + 1, nstr, nms, cl⟩
                (by rw [streamOf_read]; exact h)
                (by rw [streamOf_read]; exact hlen)
              simp only [blockLoop, ScannerState.advance, hcf]
              simp only [if_neg (show ¬(some '\n' = some '/' ∧
                flag = false) from by simp)]
              simpa using hrec
            · have hrec := ih (if c = '*' then false else true)
                ⟨inp.tail, inp.head?, pos + 1, ln, nstr, nms, cl⟩
                (by rw [streamOf_read]; exact h)
                (by rw [streamOf_read]; exact hlen)
              simp only [blockLoop, ScannerState.advance]
              simp only [if_neg (show ¬(some c = some '/' ∧
                flag = false) from by simpa using hcf)]
              simp only [if_neg (show ¬(some c = some '\n') from by
                simpa using hnl)]
              simpa using hrec

theorem hashLoop_noNL :
    ∀ fuel s, (∀ c ∈ streamOf s, c ≠ '\n') →
      (streamOf s).length < fuel →
      (hashLoop fuel s).1 = true ∧ (hashLoop fuel s).2.closed = s.closed := by
  intro fuel
  induction fuel with
  | zero => intro s h hl; exact absurd hl (Nat.not_lt_zero _)
  | succ f ih =>
      intro s h hl
      obtain ⟨inp, cur, pos, ln, nstr, nms, cl⟩ := s
      cases cur with
      | none => simp [hashLoop, ScannerState.advance, streamOf]
      | some c =>
          simp only [streamOf] at h hl
          have hcne : ¬ c = '\n' := h c (List.mem_cons_self c inp)
          have hlen : inp.length < f := by
            simp at hl
            omega
          have hrec := ih ⟨inp.tail, inp.head?, pos + 1, ln, nstr, nms, cl⟩
            (by rw [streamOf_read]
                intro x hx
                exact h x (List.mem_cons_of_mem c hx))
            (by rw [streamOf_read]; exact hlen)
          simp only [hashLoop, ScannerState.advance]
          simp only [if_neg (show ¬(some c = some '\n') from by
            simpa using hcne)]
          simpa using hrec

theorem blockCommentEOF (fuel : Nat) (s : ScannerState)
    (rest : List Char) (hc : s.current = some '/')
    (hi : s.input = '*' :: rest) (hnc : blockCloses true rest = false)
    (hf : rest.length + 3 ≤ fuel) :
    (getSymbol fuel s).1.type = some SymKind.EOF ∧
    (getSymbol fuel s).2.closed = s.closed := by
  obtain ⟨f, rfl⟩ : ∃ f, fuel = f + 1 := ⟨fuel - 1, by omega⟩
  have hsp := skipSpaces_eq_self (f + 1) s (by rw [hc]; simp)
    (by rw [hc]; simp)
  have hadv : s.advance.current = some '*' := by
    simp [ScannerState.advance, hi]
  have hstream : streamOf s.advance.advance = rest := by
    rw [streamOf_advance]
    simp [ScannerState.advance, hi]
  have hbl := blockLoop_noClose f true s.advance.advance
    (by rw [hstream]; exact hnc)
    (by rw [hstream]; omega)
  unfold getSymbol
  rw [hsp]
  simp only [symLoop, hc, hadv]
  simp only [true_or, if_true]
  rw [hbl.1]
  rw [if_pos rfl]
  refine ⟨rfl, ?_⟩
  rw [hbl.2]
  rfl

theorem eofPathsClosed :
    (∀ fuel s, 1 ≤ fuel → s.current = Option.none →
      (getSymbol fuel s).1.type = some SymKind.EOF ∧
      (getSymbol fuel s).2.closed = true) ∧
    (∀ fuel s, s.current = some '#' → (∀ c ∈ s.input, c ≠ '\n') →
      s.input.length + 3 ≤ fuel →
      (getSymbol fuel s).1.type = some SymKind.EOF ∧
      (getSymbol fuel s).2.closed = s.closed) := by
  constructor
  · intro fuel s hf hc
    obtain ⟨f, rfl⟩ : ∃ f, fuel = f + 1 := ⟨fuel - 1, by omega⟩
    have hsp := skipSpaces_eq_self (f + 1) s (by rw [hc]; simp)
      (by rw [hc]; simp)
    unfold getSymbol
    rw [hsp]
    simp [symLoop, hc, dispatch]
  · intro fuel s hc hnl hf
    obtain ⟨f, rfl⟩ : ∃ f, fuel = f + 1 := ⟨fuel - 1, by omega⟩
    have hsp := skipSpaces_eq_self (f + 1) s (by rw [hc]; simp)
      (by rw [hc]; simp)
    have hh := hashLoop_noNL f s
      (by intro c hcs
          rw [show streamOf s = '#' :: s.input from by simp [streamOf, hc]]
            at hcs
          rcases List.mem_cons.mp hcs with h | h
          · subst h
            decide
          · exact hnl c h)
      (by rw [show streamOf s = '#' :: s.input from by simp [streamOf, hc]]
          simp
          omega)
    unfold getSymbol
    rw [hsp]
    simp only [symLoop, hc]
    simp only [true_or, or_true, if_true]
    rw [if_neg (show ¬ (some '#' = some '/') from by simp)]
    rw [hh.1]
    rw [if_pos rfl]
    exact ⟨rfl, hh.2⟩

/-- A scanner state positioned at the digit run "10" with "SWITCH" as
the most recently seen name string. -/
def swState : ScannerState := { mkScanner "10," with name_string := "SWITCH" }

/-- Witness for C4: scanning the two-digit run "10" after SWITCH yields
a NUMBER symbol with the sentinel id 2. -/
theorem switch_digit_run_witness :
    (getSymbol 10 swState).1.type = some SymKind.NUMBER ∧
    (getSymbol 10 swState).1.id = SymId.num 2 := by
  have h := switch_digit_run 10 swState '1' rfl (by decide) rfl (by decide)
  exact ⟨h.1, h.2.trans (by decide)⟩

/-- Counterexample for C5: the invalid character `!` and a bare `/` not
followed by `*` each make `get_symbol` return a symbol whose `type` is
`None` — not one of the nine recognized kinds — so not every returned
symbol has a recognized kind, and the call does not retry. -/
theorem invalid_char_counterexample :
    (getSymbol 20 (mkScanner "!;")).1.type = Option.none ∧
    (getSymbol 20 (mkScanner "/a")).1.type = Option.none := by decide

/-- Witness for C5 (amended) at the same two inputs. -/
theorem invalid_char_symbol_witness :
    getSymbol 20 (mkScanner "!;") =
      ({ type := Option.none, id := SymId.none, line_number := 1,
         position := 1 }, (mkScanner "!;").advance) ∧
    getSymbol 20 (mkScanner "/a") =
      ({ type := Option.none, id := SymId.none, line_number := 1,
         position := 1 }, (mkScanner "/a").advance) := by
  constructor
  · exact invalid_char_symbol.1 20 (mkScanner "!;") '!' (by decide) rfl
      (by decide) (by decide) (by decide)
  · exact invalid_char_symbol.2 20 (mkScanner "/a") (by decide) rfl
      (by decide)

/-- The symbol after the tab in the file "x<TAB>y". -/
def tabScan2 : Tok := (getSymbol 20 ((getSymbol 20 (mkScanner "x\ty")).2)).1

/-- Counterexample for C6: in the file "x<TAB>y", the symbol `y` is
reported at column 3 — the tab advanced the column by 1, not by 4
(under the claim, `x` at column 1 and a 4-column tab would put `y` at
column 6). -/
theorem tab_column_counterexample :
    tabScan2.position = 3 ∧ ¬ tabScan2.position = 6 := by decide

/-- Witness for C6 (amended): skipping the run space-tab advances the
column by 1 + 1 + 3 = 5 (the tab counts 4 because a space precedes it). -/
theorem skipSpaces_run_witness :
    skipSpaces 5 (mkScanner " \tx") =
      { (mkScanner " \tx") with
        position := 6, current := some 'x', input := [] } := by
  have h := skipSpaces_run ['\t'] ' ' ['x'] (mkScanner " \tx") 5 rfl
    (Or.inl rfl) rfl (by decide) (by decide) (by decide) (by decide)
  rw [h]
  decide

/-- C8: reaching end of file inside an unterminated `/*...*/` block
comment makes `get_symbol` return a symbol of kind EOF; the scanner is
a total function with no error channel of its own, so no scanner-side
error is flagged for the unterminated comment. -/
theorem unterminated_comment_eof (fuel : Nat) (s : ScannerState)
    (rest : List Char) (hc : s.current = some '/')
    (hi : s.input = '*' :: rest) (hnc : blockCloses true rest = false)
    (hf : rest.length + 3 ≤ fuel) :
    (getSymbol fuel s).1.type = some SymKind.EOF :=
  (blockCommentEOF fuel s rest hc hi hnc hf).1

/-- Witness for C8 at the unterminated comment file "/*ab". -/
theorem unterminated_comment_eof_witness :
    (getSymbol 20 (mkScanner "/*ab")).1.type = some SymKind.EOF :=
  unterminated_comment_eof 20 (mkScanner "/*ab") ['a', 'b'] rfl rfl
    (by decide) (by decide)

/-- C9 (amended): the file handle is closed exactly on the top-level
EOF path: `get_symbol` at end of input closes the file and returns EOF,
while EOF reached inside a `#` line comment or inside an unterminated
block comment returns an EOF symbol with the handle left as it was
(not closed). -/
theorem scanner_close_amended :
    (∀ fuel s, 1 ≤ fuel → s.current = Option.none →
      (getSymbol fuel s).1.type = some SymKind.EOF ∧
      (getSymbol fuel s).2.closed = true) ∧
    (∀ fuel s, s.current = some '#' → (∀ c ∈ s.input, c ≠ '\n') →
      s.input.length + 3 ≤ fuel →
      (getSymbol fuel s).1.type = some SymKind.EOF ∧
      (getSymbol fuel s).2.closed = s.closed) ∧
    (∀ fuel s rest, s.current = some '/' → s.input = '*' :: rest →
      blockCloses true rest = false → rest.length + 3 ≤ fuel →
      (getSymbol fuel s).1.type = some SymKind.EOF ∧
      (getSymbol fuel s).2.closed = s.closed) :=
  ⟨eofPathsClosed.1, eofPathsClosed.2, blockCommentEOF⟩

/-- Counterexample for C9: on the file "#" the scanner returns an EOF
symbol from inside the line comment, yet the file handle has not been
closed. -/
theorem scanner_close_counterexample :
    (getSymbol 20 (mkScanner "#")).1.type = some SymKind.EOF ∧
    (getSymbol 20 (mkScanner "#")).2.closed = false := by decide

/-- Witness for C9 (amended): top-level EOF closes the file, EOF inside
a line comment leaves it open. -/
theorem scanner_close_witness :
    ((getSymbol 5 (mkScanner "")).1.type = some SymKind.EOF ∧
     (getSymbol 5 (mkScanner "")).2.closed = true) ∧
    ((getSymbol 20 (mkScanner "#z")).1.type = some SymKind.EOF ∧
     (getSymbol 20 (mkScanner "#z")).2.closed = false) := by
  constructor
  · exact scanner_close_amended.1 5 (mkScanner "") (by decide) rfl
  · exact scanner_close_amended.2.1 20 (mkScanner "#z") rfl (by decide)
      (by decide)

theorem parseEpilogue_true_iff (ps : ParserState) :
    (parseEpilogue ps).1 = true ↔
      (ps.error_count = 0 ∧ checkNetwork ps.devices = true ∧
       ¬ ((findDevices ps.devices).length = 0 ∧
          (getSignalNames ps.devices ps.monitors).1.length = 0 ∧
          (getSignalNames ps.devices ps.monitors).2.length = 0)) := by
  unfold parseEpilogue
  by_cases h1 : ps.error_count = 0
  · by_cases h2 : checkNetwork ps.devices = true
    · by_cases h3 : findDevices ps.devices = [] ∧
          (getSignalNames ps.devices ps.monitors).1 = [] ∧
          (getSignalNames ps.devices ps.monitors).2 = []
      · simp [h1, h2, h3]
      · simp only [h1, h2]
        simp [h3, h1]
    · simp [h1, h2]
  · simp [h1, Nat.pos_of_ne_zero h1]

theorem parseEpilogue_summary (ps : ParserState) :
    (parseEpilogue ps).1 = false →
      Diag.summary (parseEpilogue ps).2.error_count ∈
        (parseEpilogue ps).2.diags := by
  intro h
  unfold parseEpilogue at h ⊢
  by_cases h1 : ps.error_count = 0
  · by_cases h2 : checkNetwork ps.devices = true
    · by_cases h3 : findDevices ps.devices = [] ∧
          (getSignalNames ps.devices ps.monitors).1 = [] ∧
          (getSignalNames ps.devices ps.monitors).2 = []
      · simp [h1, h2, h3]
      · simp only [h1, h2] at h
        simp [h3, h1] at h
    · simp [h1, h2]
  · simp [h1, Nat.pos_of_ne_zero h1]

/-- A normal (non-raising) run of `parse_network` applies the epilogue
to the token loop's final state, so for such runs the returned boolean
is governed by `parseEpilogue_true_iff` and `parseEpilogue_summary`. -/
theorem parseNetwork_eq_of_loop (fuel : Nat) (names : Names)
    (ts : List Tok) (ps : ParserState)
    (h : parseLoop fuel (parseInit names ts) = some ps) :
    parseNetwork fuel names ts = some (parseEpilogue ps) := by
  simp [parseNetwork, h]

theorem perrorLoop_toEOF :
    ∀ (mid : List Tok) (fuel : Nat) (flag : Bool) (ps : ParserState)
      (eofTok : Tok) (rest : List Tok),
      ps.symbol.type ≠ some SymKind.EOF →
      ps.stream = mid ++ eofTok :: rest →
      (∀ t ∈ mid, t.type ≠ some SymKind.COMMA ∧
        t.type ≠ some SymKind.SEMICOLON ∧ t.type ≠ some SymKind.EOF ∧
        isSectionId t.id = false) →
      eofTok.type = some SymKind.EOF → isSectionId eofTok.id = false →
      mid.length + 2 ≤ fuel →
      perrorLoop fuel flag ps =
        { ps with stream := rest, symbol := eofTok,
                  error_count := ps.error_count + 1,
                  diags := ps.diags ++ [Diag.missingEnd eofTok],
                  parent := Option.none } := by
  intro mid
  induction mid with
  | nil =>
      intro fuel flag ps eofTok rest hne hstream hmid heof heofid hf
      obtain ⟨f, rfl⟩ : ∃ f, fuel = f + 1 := ⟨fuel - 1, by omega⟩
      obtain ⟨g, rfl⟩ : ∃ g, f = g + 1 := ⟨f - 1, by omega⟩
      simp only [List.nil_append] at hstream
      simp only [perrorLoop, if_neg hne, ParserState.next, hstream]
      simp [heof, heofid, perrorLoop]
  | cons m mid ih =>
      intro fuel flag ps eofTok rest hne hstream hmid heof heofid hf
      obtain ⟨f, rfl⟩ : ∃ f, fuel = f + 1 := ⟨fuel - 1, by omega⟩
      obtain ⟨hm1, hm2, hm3, hm4⟩ := hmid m (List.mem_cons_self m mid)
      simp only [List.cons_append] at hstream
      have hrec := ih f flag
        { ps with symbol := m, stream := mid ++ eofTok :: rest }
        eofTok rest hm3 rfl
        (fun t ht => hmid t (List.mem_cons_of_mem m ht))
        heof heofid (by simp at hf ⊢; omega)
      simp only [perrorLoop, if_neg hne, ParserState.next, hstream]
      simp [hm1, hm2, hm4, hrec]

theorem perrorLoop_toSection :
    ∀ (mid : List Tok) (fuel : Nat) (flag : Bool) (ps : ParserState)
      (kw : Tok) (rest : List Tok),
      ps.symbol.type ≠ some SymKind.EOF →
      ps.stream = mid ++ kw :: rest →
      (∀ t ∈ mid, t.type ≠ some SymKind.COMMA ∧
        t.type ≠ some SymKind.SEMICOLON ∧ t.type ≠ some SymKind.EOF ∧
        isSectionId t.id = false) →
      kw.type = some SymKind.KEYWORD → isSectionId kw.id = true →
      mid.length + 1 ≤ fuel →
      perrorLoop fuel flag ps =
        if flag then
          { ps with stream := rest, symbol := kw, parent := Option.none }
        else
          { ps with stream := rest, symbol := kw, parent := Option.none,
                    error_count := ps.error_count + 1,
                    diags := ps.diags ++ [Diag.missedSemi kw] } := by
  intro mid
  induction mid with
  | nil =>
      intro fuel flag ps kw rest hne hstream hmid hkw hkwid hf
      obtain ⟨f, rfl⟩ : ∃ f, fuel = f + 1 := ⟨fuel - 1, by omega⟩
      simp only [List.nil_append] at hstream
      simp only [perrorLoop, if_neg hne, ParserState.next, hstream]
      simp [hkw, hkwid]
  | cons m mid ih =>
      intro fuel flag ps kw rest hne hstream hmid hkw hkwid hf
      obtain ⟨f, rfl⟩ : ∃ f, fuel = f + 1 := ⟨fuel - 1, by omega⟩
      obtain ⟨hm1, hm2, hm3, hm4⟩ := hmid m (List.mem_cons_self m mid)
      simp only [List.cons_append] at hstream
      have hrec := ih f flag
        { ps with symbol := m, stream := mid ++ kw :: rest }
        kw rest hm3 rfl
        (fun t ht => hmid t (List.mem_cons_of_mem m ht))
        hkw hkwid (by simp at hf ⊢; omega)
      simp only [perrorLoop, if_neg hne, ParserState.next, hstream]
      simp [hm1, hm2, hm4, hrec]

/-- C2 (amended): the "missing END" error is emitted exactly when
panic-mode recovery runs to end of file: when `Parser.error` is raised
away from a synchronization point and token consumption reaches the EOF
token without meeting a comma, semicolon or section keyword, one
missing-END diagnostic is appended and the error count becomes non-zero
(so `parse_network` returns false); a fault-free file that reaches EOF
without END is not reported. -/
theorem missing_end_on_recovery (fuel : Nat) (et : Nat) (ps : ParserState)
    (mid : List Tok) (eofTok : Tok) (rest : List Tok)
    (h1 : et ≠ E_MISSED_SEMICOLON)
    (h2 : isSectionId ps.symbol.id = false)
    (h3 : ps.symbol.type ≠ some SymKind.COMMA)
    (h4 : ps.symbol.type ≠ some SymKind.SEMICOLON)
    (h5 : ps.symbol.type ≠ some SymKind.EOF)
    (hstream : ps.stream = mid ++ eofTok :: rest)
    (hmid : ∀ t ∈ mid, t.type ≠ some SymKind.COMMA ∧
      t.type ≠ some SymKind.SEMICOLON ∧ t.type ≠ some SymKind.EOF ∧
      isSectionId t.id = false)
    (heof : eofTok.type = some SymKind.EOF)
    (heofid : isSectionId eofTok.id = false)
    (hf : mid.length + 2 ≤ fuel) :
    perror fuel et ps =
      { ps with stream := rest, symbol := eofTok,
                error_count := ps.error_count + 2,
                diags := ps.diags ++ [Diag.faultMsg et ps.symbol,
                  Diag.missingEnd eofTok],
                parent := Option.none } := by
  unfold perror
  rw [if_neg h1, if_neg (show ¬ isSectionId ps.symbol.id = true from by
    simp [h2])]
  rw [if_neg (show ¬ (ps.symbol.type = some SymKind.COMMA ∧
    ps.parent ≠ Option.none) from fun hh => h3 hh.1)]
  rw [if_neg h4]
  rw [if_neg (show ¬ isSectionId ps.symbol.id = true from by
    simp [h2])]
  rw [perrorLoop_toEOF mid fuel _
    { ps with error_count := ps.error_count + 1,
              diags := ps.diags ++ [Diag.faultMsg et ps.symbol] }
    eofTok rest h5 hstream hmid heof heofid hf]
  simp

/-- C3 (amended): a fault raised away from a synchronization point
emits exactly one diagnostic and consumes tokens up to the next
synchronization point; when recovery lands on a section keyword without
the expected semicolon having been seen, one additional synthetic
missed-semicolon error is reported at that keyword unless the original
fault was the missing comma/semicolon fault itself (`NO_SEMICOLON`),
whose recovery suppresses the synthetic error. -/
theorem missed_semicolon_on_section (fuel : Nat) (et : Nat)
    (ps : ParserState) (mid : List Tok) (kw : Tok) (rest : List Tok)
    (h1 : et ≠ E_MISSED_SEMICOLON)
    (h2 : isSectionId ps.symbol.id = false)
    (h3 : ps.symbol.type ≠ some SymKind.COMMA)
    (h4 : ps.symbol.type ≠ some SymKind.SEMICOLON)
    (h5 : ps.symbol.type ≠ some SymKind.EOF)
    (hstream : ps.stream = mid ++ kw :: rest)
    (hmid : ∀ t ∈ mid, t.type ≠ some SymKind.COMMA ∧
      t.type ≠ some SymKind.SEMICOLON ∧ t.type ≠ some SymKind.EOF ∧
      isSectionId t.id = false)
    (hkw : kw.type = some SymKind.KEYWORD)
    (hkwid : isSectionId kw.id = true)
    (hf : mid.length + 1 ≤ fuel) :
    perror fuel et ps =
      { ps with stream := rest, symbol := kw, parent := Option.none,
                error_count := ps.error_count +
                  (if et = E_NO_SEMICOLON then 1 else 2),
                diags := ps.diags ++ [Diag.faultMsg et ps.symbol] ++
                  (if et = E_NO_SEMICOLON then []
                   else [Diag.missedSemi kw]) } := by
  unfold perror
  rw [if_neg h1, if_neg (show ¬ isSectionId ps.symbol.id = true from by
    simp [h2])]
  rw [if_neg (show ¬ (ps.symbol.type = some SymKind.COMMA ∧
    ps.parent ≠ Option.none) from fun hh => h3 hh.1)]
  rw [if_neg h4]
  rw [if_neg (show ¬ isSectionId ps.symbol.id = true from by
    simp [h2])]
  rw [perrorLoop_toSection mid fuel _
    { ps with error_count := ps.error_count + 1,
              diags := ps.diags ++ [Diag.faultMsg et ps.symbol] }
    kw rest h5 hstream hmid hkw hkwid hf]
  by_cases hsc : et = E_NO_SEMICOLON
  · simp [hsc]
  · simp [hsc]

/-- A KEYWORD token with name ID `k`. -/
def tokKW (k : Nat) : Tok :=
  { type := some SymKind.KEYWORD, id := SymId.num k }

/-- A NAME token with name ID `k`. -/
def tokNAME (k : Nat) : Tok :=
  { type := some SymKind.NAME, id := SymId.num k }

/-- A punctuation token of kind `k`. -/
def tokPunct (k : SymKind) : Tok := { type := some k }

/-- A NUMBER token with value `n`. -/
def tokNUM (n : Nat) : Tok :=
  { type := some SymKind.NUMBER, id := SymId.num n }

/-- An EOF token. -/
def tokEOF : Tok := { type := some SymKind.EOF }

/-- The token stream of the fault-free file
`DEVICES S1:SWITCH 1; MONITOR S1;` (no END before EOF; ID 35 is the
first user name interned after the 35 keywords). -/
def c2Tokens : List Tok :=
  [tokKW DEVICES_ID, tokNAME 35, tokPunct SymKind.COLON, tokKW SWITCH_ID,
   tokNUM 1, tokPunct SymKind.SEMICOLON, tokKW MONITOR_ID, tokNAME 35,
   tokPunct SymKind.SEMICOLON, tokEOF]

/-- Counterexample for C2: a fault-free token stream that reaches EOF
without an END keyword yields no diagnostics at all, a zero error
count, and `parse_network` returns true — no "missing END" error is
emitted. -/
theorem missing_end_counterexample :
    (∀ t ∈ c2Tokens, t.id ≠ SymId.num END_ID) ∧
    (parseNetwork 20 namesAfterKeywords c2Tokens).map Prod.fst =
      some true ∧
    (parseNetwork 20 namesAfterKeywords c2Tokens).map
      (fun q => q.2.diags) = some [] ∧
    (parseNetwork 20 namesAfterKeywords c2Tokens).map
      (fun q => q.2.error_count) = some 0 := by
  decide

/-- Witness for C2 (amended): an invalid-name fault whose recovery runs
to EOF emits the fault diagnostic plus the missing-END diagnostic. -/
theorem missing_end_on_recovery_witness :
    perror 10 E_INVALID_NAME
      { stream := [tokNAME 40, tokEOF], symbol := tokNAME 41,
        parent := some 'D', error_count := 0, diags := [],
        names := namesAfterKeywords, devices := [], monitors := [] } =
      { stream := [], symbol := tokEOF, parent := Option.none,
        error_count := 2,
        diags := [Diag.faultMsg E_INVALID_NAME (tokNAME 41),
          Diag.missingEnd tokEOF],
        names := namesAfterKeywords, devices := [], monitors := [] } := by
  have h := missing_end_on_recovery 10 E_INVALID_NAME
    { stream := [tokNAME 40, tokEOF], symbol := tokNAME 41,
      parent := some 'D', error_count := 0, diags := [],
      names := namesAfterKeywords, devices := [], monitors := [] }
    [tokNAME 40] tokEOF [] (by decide) (by decide) (by decide) (by decide)
    (by decide) rfl (by decide) rfl (by decide) (by decide)
  exact h.trans (by decide)

/-- A parser state inside a DEVICES list whose remaining stream holds a
section keyword and then EOF. -/
def c3State : ParserState :=
  { stream := [tokKW DEVICES_ID, tokEOF], symbol := tokNAME 40,
    parent := some 'D', error_count := 0, diags := [],
    names := namesAfterKeywords, devices := [], monitors := [] }

/-- Counterexample for C3: a `NO_SEMICOLON` fault whose recovery lands
on the DEVICES section keyword emits exactly one diagnostic in total —
no additional synthetic missed-semicolon error is reported at the
keyword. -/
theorem missed_semicolon_counterexample :
    (perror 10 E_NO_SEMICOLON c3State).symbol = tokKW DEVICES_ID ∧
    isSectionId (tokKW DEVICES_ID).id = true ∧
    (perror 10 E_NO_SEMICOLON c3State).error_count = 1 ∧
    (perror 10 E_NO_SEMICOLON c3State).diags =
      [Diag.faultMsg E_NO_SEMICOLON (tokNAME 40)] := by
  decide

/-- Witness for C3 (amended): a `NO_COLON` fault whose recovery lands
on a section keyword yields two diagnostics, the second being the
synthetic missed-semicolon error at the keyword. -/
theorem missed_semicolon_on_section_witness :
    perror 10 E_NO_COLON c3State =
      { stream := [tokEOF], symbol := tokKW DEVICES_ID,
        parent := Option.none, error_count := 2,
        diags := [Diag.faultMsg E_NO_COLON (tokNAME 40),
          Diag.missedSemi (tokKW DEVICES_ID)],
        names := namesAfterKeywords, devices := [], monitors := [] } := by
  have h := missed_semicolon_on_section 10 E_NO_COLON c3State []
    (tokKW DEVICES_ID) [tokEOF] (by decide) (by decide) (by decide)
    (by decide) (by decide) rfl (by decide) rfl (by decide) (by decide)
  exact h.trans (by decide)

/-- The token stream of the definition file
`DEVICES S1:SWITCH 1, G1:AND 2; CONNECT S1 > G1., ; END`: the port
token after `G1.` is a comma, whose `id` is Python `None`. -/
def crashTokens : List Tok :=
  [tokKW DEVICES_ID, tokNAME 35, tokPunct SymKind.COLON, tokKW SWITCH_ID,
   tokNUM 1, tokPunct SymKind.COMMA, tokNAME 36, tokPunct SymKind.COLON,
   tokKW AND_ID, tokNUM 2, tokPunct SymKind.SEMICOLON, tokKW CONNECT_ID,
   tokNAME 35, tokPunct SymKind.ARROW, tokNAME 36, tokPunct SymKind.DOT,
   tokPunct SymKind.COMMA, tokPunct SymKind.SEMICOLON, tokKW END_ID,
   tokEOF]

/-- C1: `parse_network` does not return a boolean on every definition
file: on `DEVICES S1:SWITCH 1, G1:AND 2; CONNECT S1 > G1., ; END` the
sink parse reaches the `name[0]` of `out_signame` (parse.py lines
341-343) with `get_name_string(None) = None`, and the uncaught
`TypeError` escapes `parse_network` (modelled by `Option.none`) —
instead of the fault being counted and `false` returned after the
error summary, as the claim, `parse_network`'s own docstring
("Returns True if parsing is successful (no errors), False otherwise")
and the spec's error policy require. -/
theorem parse_network_typeerror :
    parseNetwork 30 namesAfterKeywords crashTokens = Option.none ∧
    ∀ b ps, ¬ parseNetwork 30 namesAfterKeywords crashTokens =
      some (b, ps) := by
  have h : parseNetwork 30 namesAfterKeywords crashTokens =
      Option.none := by decide
  refine ⟨h, ?_⟩
  intro b ps hc
  rw [h] at hc
  exact Option.noConfusion hc
